import Mathlib

/-!
Shallow embedding of the generation-dispatch core of `src/server/aiRoutes.ts`:
the model-endpoint registry, the zod request validator, the dispatcher
`generateCode` (timeout, provider call, response transform, error
classification) and the Express handler `generateCodeHandler`.

JavaScript values flowing through the route are modelled by a small JSON
type; the provider's behaviour (one HTTP round trip) is an explicit
parameter of the dispatcher, and environment variables are a lookup
function, so every definition is a pure, executable function of its inputs.
-/

/-- JSON values, as produced by `JSON.parse` / sent by `res.json`. -/
inductive Json where
  | null
  | bool (b : Bool)
  | num (n : Int)
  | str (s : String)
  | arr (xs : List Json)
  | obj (fields : List (String × Json))

/-- JavaScript property access `v[key]`: a lookup in an object's fields,
`undefined` (here `none`) on any non-object. -/
def Json.get : Json → String → Option Json
  | .obj fields, key => fields.lookup key
  | _, _ => none

/-- JavaScript truthiness of a JSON value. -/
def Json.truthy : Json → Bool
  | .null => false
  | .bool b => b
  | .num n => n != 0
  | .str s => s != ""
  | .arr _ => true
  | .obj _ => true

/-- JavaScript `v || d` on a possibly-`undefined` value: the value when it is
truthy, the default otherwise. -/
def jsOrElse (v : Option Json) (d : Json) : Json :=
  match v with
  | some j => if j.truthy then j else d
  | none => d

/-- JavaScript optional chaining `v?.key`: `undefined` when `v` is
`null`/`undefined`, ordinary property access otherwise. -/
def jsOptGet (v : Option Json) (key : String) : Option Json :=
  match v with
  | none => none
  | some .null => none
  | some j => j.get key

/-- JavaScript `s || d` for strings: `d` exactly when `s` is empty. -/
def jsStrOrElse (s d : String) : String :=
  if s = "" then d else s

/-- Environment variables: `process.env` as a partial map. -/
def EnvMap : Type := String → Option String

/-- Interpolation of a possibly-unset environment variable into a template
literal: JavaScript renders `undefined` as the string `"undefined"`. -/
def envStr (v : Option String) : String :=
  v.getD "undefined"

/-- Transform of the `codellama` registry entry:
`(response) => response.output || ''`. -/
def codellamaTransform (response : Json) : Json :=
  jsOrElse (response.get "output") (.str "")

/-- Transform of the `starcoder` registry entry:
`(response) => response.generated_text || ''`. -/
def starcoderTransform (response : Json) : Json :=
  jsOrElse (response.get "generated_text") (.str "")

/-- Transform of the `wizard-coder` registry entry:
`(response) => response.output?.text || ''`. -/
def wizardCoderTransform (response : Json) : Json :=
  jsOrElse (jsOptGet (response.get "output") "text") (.str "")

/-- A registry entry: endpoint URL, auth headers, response transform
(interface `ModelEndpoint` of the source). -/
structure ModelEndpoint where
  url : String
  headers : List (String × String)
  transform : Json → Json

/-- The static model registry `modelEndpoints`, keyed by model id, with the
environment-variable fallbacks of the source. -/
def modelEndpoints (env : EnvMap) : List (String × ModelEndpoint) :=
  [ ("codellama",
      { url := (env "CODELLAMA_API_URL").getD "https://api.replicate.com/v1/predictions"
        headers := [("Authorization", "Token " ++ envStr (env "REPLICATE_API_KEY")),
                    ("Content-Type", "application/json")]
        transform := codellamaTransform }),
    ("starcoder",
      { url := (env "STARCODER_API_URL").getD "https://api.huggingface.co/models/bigcode/starcoder"
        headers := [("Authorization", "Bearer " ++ envStr (env "HUGGINGFACE_API_KEY")),
                    ("Content-Type", "application/json")]
        transform := starcoderTransform }),
    ("wizard-coder",
      { url := (env "WIZARD_CODER_API_URL").getD "https://api.together.xyz/inference"
        headers := [("Authorization", "Bearer " ++ envStr (env "TOGETHER_API_KEY")),
                    ("Content-Type", "application/json")]
        transform := wizardCoderTransform }) ]

/-- The JSON body sent to the provider: the fixed instruction template plus
the fixed generation parameters of the source. -/
structure RequestBody where
  prompt : String
  max_new_tokens : Nat
  temperature : ℚ
  top_p : ℚ
deriving DecidableEq

/-- The request body `generateCode` builds for a prompt and language. -/
def buildRequestBody (prompt language : String) : RequestBody :=
  { prompt := "Write " ++ language ++ " code for: " ++ prompt ++
      "\nOnly respond with code, no explanations."
    max_new_tokens := 1000
    temperature := (0.2 : ℚ)
    top_p := (0.95 : ℚ) }

/-- One provider HTTP response: status, status text, the body as text
(`none` when `response.text()` rejects) and the body as JSON
(`.error` with the rejection's message when `response.json()` rejects). -/
structure ProviderResponse where
  status : Nat
  statusText : String
  bodyText : Option String
  bodyJson : Except String Json

/-- Fetch's `response.ok`: status in the 2xx range. -/
def ProviderResponse.isOk (r : ProviderResponse) : Bool :=
  200 ≤ r.status && r.status < 300

/-- Outcome of the single `fetch` call: rejected with `AbortError` because
the cancellation timer fired, rejected with some other error (a network
failure, say), or resolved with a response. -/
inductive FetchOutcome where
  | aborted
  | netError (msg : String)
  | resolved (resp : ProviderResponse)

/-- The timeout of the cancellation timer, in milliseconds:
`setTimeout(() => controller.abort(), 30000)`. -/
def timeoutMs : Nat := 30000

/-- Outcome of the fetch when the provider would answer `resp` after
`delayMs` milliseconds: the timer and the call share one abort signal, so
the call is aborted exactly when the provider does not respond before the
timer fires, and otherwise the timer is cleared and the response observed. -/
def fetchOutcomeAt (delayMs : Nat) (resp : ProviderResponse) : FetchOutcome :=
  if timeoutMs ≤ delayMs then .aborted else .resolved resp

/-- Classified failures of `generateCode`, each carrying the thrown `Error`'s
message (the source distinguishes them only by message; the constructors
record which `throw` site produced it). -/
inductive GenFailure where
  | unsupportedModel (msg : String)
  | timeout (msg : String)
  | providerError (msg : String)
  | emptyResult (msg : String)
  | unexpected (msg : String)
deriving DecidableEq

/-- Message carried by a classified failure. -/
def GenFailure.message : GenFailure → String
  | .unsupportedModel m => m
  | .timeout m => m
  | .providerError m => m
  | .emptyResult m => m
  | .unexpected m => m

/-- The HTTP request `generateCode` issues, when it issues one. -/
structure OutboundRequest where
  url : String
  headers : List (String × String)
  body : RequestBody

/-- What one dispatch did: the outbound request (`none` when no HTTP call
was made) and the returned code or classified failure. -/
structure DispatchTrace where
  request : Option OutboundRequest
  result : Except GenFailure String

/-- JavaScript `String.prototype.trim`: the string with leading and
trailing whitespace removed. -/
def jsTrim (s : String) : String :=
  ⟨((s.data.dropWhile Char.isWhitespace).reverse.dropWhile Char.isWhitespace).reverse⟩

/-- Check of the transformed result, `!result || result.trim() === ''`:
a falsy result, or a string blank after trimming, throws the empty-result
error; a truthy non-string has no `trim` method and throws a `TypeError`,
left unclassified. -/
def checkResult (result : Json) : Except GenFailure String :=
  match result with
  | .str s =>
      if jsTrim s = "" then .error (.emptyResult "Empty response from AI model")
      else .ok s
  | r =>
      if r.truthy then .error (.unexpected "result.trim is not a function")
      else .error (.emptyResult "Empty response from AI model")

/-- The dispatcher `generateCode(prompt, language, model)`: registry lookup,
request composition, the fetch (its outcome a parameter), then status check,
JSON parse, transform and emptiness check, classifying every failure. -/
def generateCode (env : EnvMap) (prompt language model : String)
    (outcome : FetchOutcome) : DispatchTrace :=
  match (modelEndpoints env).lookup model with
  | none => ⟨none, .error (.unsupportedModel ("Unsupported model: " ++ model))⟩
  | some endpoint =>
    let req : OutboundRequest :=
      ⟨endpoint.url, endpoint.headers, buildRequestBody prompt language⟩
    match outcome with
    | .aborted =>
        ⟨some req, .error (.timeout
          ("Request to " ++ model ++ " API timed out after 30 seconds"))⟩
    | .netError msg => ⟨some req, .error (.unexpected msg)⟩
    | .resolved resp =>
        if resp.isOk then
          match resp.bodyJson with
          | .error msg => ⟨some req, .error (.unexpected msg)⟩
          | .ok data => ⟨some req, checkResult (endpoint.transform data)⟩
        else
          ⟨some req, .error (.providerError
            ("API request failed (" ++ toString resp.status ++ "): " ++
              resp.bodyText.getD resp.statusText))⟩

/-- Name zod gives a JSON value's type in its `invalid_type` messages. -/
def jsonTypeName : Json → String
  | .null => "null"
  | .bool _ => "boolean"
  | .num _ => "number"
  | .str _ => "string"
  | .arr _ => "array"
  | .obj _ => "object"

/-- One zod validation issue: its code, its human message and its path.
Real zod issues carry further code-specific fields; no claim depends on
them, so only these three are modelled. -/
structure ZodIssue where
  code : String
  message : String
  path : List String
deriving DecidableEq

/-- Parse of the `prompt` field, `z.string().min(1, 'Prompt is required')`:
required, must be a string, must have length at least 1. -/
def parsePrompt (v : Option Json) : Except ZodIssue String :=
  match v with
  | none => .error ⟨"invalid_type", "Required", ["prompt"]⟩
  | some (.str s) =>
      if s.length < 1 then .error ⟨"too_small", "Prompt is required", ["prompt"]⟩
      else .ok s
  | some j =>
      .error ⟨"invalid_type", "Expected string, received " ++ jsonTypeName j, ["prompt"]⟩

/-- Parse of an optional string field with a default,
`z.string().optional().default(dflt)`: the default when absent, the string
when present as a string, an `invalid_type` issue otherwise. -/
def parseOptionalString (v : Option Json) (dflt : String) (field : String) :
    Except ZodIssue String :=
  match v with
  | none => .ok dflt
  | some (.str s) => .ok s
  | some j =>
      .error ⟨"invalid_type", "Expected string, received " ++ jsonTypeName j, [field]⟩

/-- Issues contributed by one field's parse. -/
def issuesOf (r : Except ZodIssue String) : List ZodIssue :=
  match r with
  | .ok _ => []
  | .error i => [i]

/-- A validated job, `z.infer<typeof generateCodeSchema>`. -/
structure GenerateCodeRequest where
  prompt : String
  language : String
  model : String
deriving DecidableEq

/-- `generateCodeSchema.parse(req.body)`: the body must be an object, the
three fields are parsed as above, and on any failure the issues of all
failing fields are collected into one ZodError. -/
def validate (j : Json) : Except (List ZodIssue) GenerateCodeRequest :=
  match j with
  | .obj _ =>
      let rp := parsePrompt (j.get "prompt")
      let rl := parseOptionalString (j.get "language") "javascript" "language"
      let rm := parseOptionalString (j.get "model") "codellama" "model"
      match rp, rl, rm with
      | .ok p, .ok l, .ok m => .ok ⟨p, l, m⟩
      | _, _, _ => .error (issuesOf rp ++ issuesOf rl ++ issuesOf rm)
  | v => .error [⟨"invalid_type", "Expected object, received " ++ jsonTypeName v, []⟩]

/-- JSON rendering (2-space indent) of an issue's path array. -/
def renderPath (p : List String) : String :=
  match p with
  | [] => "[]"
  | _ => "[\n" ++
      String.intercalate ",\n" (p.map (fun s => "      \"" ++ s ++ "\"")) ++
      "\n    ]"

/-- JSON rendering (2-space indent) of one issue's modelled fields. -/
def renderIssue (i : ZodIssue) : String :=
  "  \x7b\n    \"code\": \"" ++ i.code ++ "\",\n    \"message\": \"" ++
    i.message ++ "\",\n    \"path\": " ++ renderPath i.path ++ "\n  \x7d"

/-- Message of a ZodError, as zod defines it: the JSON serialization, with
2-space indent, of the issues array — never the bare issue message. Real
zod prints further code-specific fields inside each issue's braces; the
rendering here keeps the shape (a bracketed JSON array quoting each issue's
`message` field), which is all any claim depends on. -/
def zodErrorMessage (issues : List ZodIssue) : String :=
  "[\n" ++ String.intercalate ",\n" (issues.map renderIssue) ++ "\n]"

/-- A response the handler sends: `res.status(s).json(body)` (plain
`res.json(body)` is status 200). -/
structure ApiResponse where
  status : Nat
  body : Json

/-- The route handler `generateCodeHandler`: validates the body (400 with
the ZodError's message on failure), dispatches, and answers 200 with
`{ code, language }` on success or 500 with
`{ error, message, model }` on a dispatch failure. -/
def generateCodeHandler (env : EnvMap) (reqBody : Json) (outcome : FetchOutcome) :
    ApiResponse :=
  match validate reqBody with
  | .error issues =>
      ⟨400, .obj [("error", .str "Invalid request data"),
                  ("message", .str (jsStrOrElse (zodErrorMessage issues) "Validation failed"))]⟩
  | .ok job =>
      match (generateCode env job.prompt job.language job.model outcome).result with
      | .ok code =>
          ⟨200, .obj [("code", .str code), ("language", .str job.language)]⟩
      | .error f =>
          ⟨500, .obj [("error", .str "Failed to generate code"),
                      ("message", .str (jsStrOrElse f.message "Unknown error occurred")),
                      ("model", .str job.model)]⟩

/-- Successful `checkResult` outputs are non-blank after trimming. -/
theorem checkResult_ok_trim (r : Json) (s : String) (h : checkResult r = .ok s) :
    jsTrim s ≠ "" := by
  unfold checkResult at h
  cases r with
  | str t =>
      by_cases ht : jsTrim t = ""
      · simp [ht] at h
      · simp [ht] at h
        subst h
        exact ht
  | null => simp [Json.truthy] at h
  | bool b => cases b <;> simp [Json.truthy] at h
  | num n => by_cases hn : n = 0 <;> simp [Json.truthy, hn] at h
  | arr xs => simp [Json.truthy] at h
  | obj fs => simp [Json.truthy] at h

/-- C1: for a validated job whose model is in the registry, a 2xx provider
response whose JSON body the endpoint's transform maps to a string that is
non-empty after trimming makes `generateCode` return exactly the transform's
output, and the handler respond 200 with `{ code, language }` built from it
and the job's language. -/
theorem generate_success_returns_transform_output
    (env : EnvMap) (reqBody : Json) (job : GenerateCodeRequest)
    (e : ModelEndpoint) (resp : ProviderResponse) (data : Json) (s : String)
    (hv : validate reqBody = .ok job)
    (he : (modelEndpoints env).lookup job.model = some e)
    (hok : resp.isOk = true)
    (hj : resp.bodyJson = .ok data)
    (ht : e.transform data = .str s)
    (hs : jsTrim s ≠ "") :
    (generateCode env job.prompt job.language job.model (.resolved resp)).result = .ok s ∧
    generateCodeHandler env reqBody (.resolved resp) =
      ⟨200, .obj [("code", .str s), ("language", .str job.language)]⟩ := by
  have hgen : (generateCode env job.prompt job.language job.model (.resolved resp)).result
      = .ok s := by
    simp [generateCode, he, hok, hj, ht, checkResult, hs]
  refine ⟨hgen, ?_⟩
  simp [generateCodeHandler, hv, hgen]

/-- C1 witness: the spec scenario, prompt "reverse a string" in python via
codellama against a stubbed provider returning
`{ output: "def reverse(s): return s[::-1]" }`. -/
theorem generate_success_returns_transform_output_witness :
    generateCodeHandler (fun _ => none)
        (.obj [("prompt", .str "reverse a string"), ("language", .str "python"),
               ("model", .str "codellama")])
        (.resolved ⟨200, "OK", none, .ok (.obj [("output", .str "def reverse(s): return s[::-1]")])⟩)
      = ⟨200, .obj [("code", .str "def reverse(s): return s[::-1]"),
                    ("language", .str "python")]⟩ :=
  (generate_success_returns_transform_output (fun _ => none)
    (.obj [("prompt", .str "reverse a string"), ("language", .str "python"),
           ("model", .str "codellama")])
    ⟨"reverse a string", "python", "codellama"⟩
    { url := "https://api.replicate.com/v1/predictions"
      headers := [("Authorization", "Token undefined"), ("Content-Type", "application/json")]
      transform := codellamaTransform }
    ⟨200, "OK", none, .ok (.obj [("output", .str "def reverse(s): return s[::-1]")])⟩
    (.obj [("output", .str "def reverse(s): return s[::-1]")])
    "def reverse(s): return s[::-1]"
    rfl rfl (by decide) rfl rfl (by decide)).2

/-- C2 counterexample: on input `{ prompt: "" }` the handler does respond
400 with error `"Invalid request data"`, but the `message` field is the
ZodError's message — the JSON serialization of the issue list — not the
bare string `"Prompt is required"`. -/
theorem empty_prompt_message_is_not_bare_string :
    generateCodeHandler (fun _ => none) (.obj [("prompt", .str "")]) .aborted
      = ⟨400, .obj [("error", .str "Invalid request data"),
                    ("message", .str (zodErrorMessage
                      [⟨"too_small", "Prompt is required", ["prompt"]⟩]))]⟩ ∧
    zodErrorMessage [⟨"too_small", "Prompt is required", ["prompt"]⟩]
      ≠ "Prompt is required" :=
  ⟨rfl, by decide⟩

/-- C2 amended: on input `{ prompt: "" }` (any environment, any provider
outcome) the handler responds 400 with error `"Invalid request data"` and
with message the ZodError's message, which contains `"Prompt is required"`
as a substring rather than being equal to it. -/
theorem empty_prompt_responds_400_with_zod_message
    (env : EnvMap) (outcome : FetchOutcome) :
    generateCodeHandler env (.obj [("prompt", .str "")]) outcome
      = ⟨400, .obj [("error", .str "Invalid request data"),
                    ("message", .str (zodErrorMessage
                      [⟨"too_small", "Prompt is required", ["prompt"]⟩]))]⟩ ∧
    ∃ a b, zodErrorMessage [⟨"too_small", "Prompt is required", ["prompt"]⟩]
        = a ++ "Prompt is required" ++ b :=
  ⟨rfl,
   "[\n  \x7b\n    \"code\": \"too_small\",\n    \"message\": \"",
   "\",\n    \"path\": [\n      \"prompt\"\n    ]\n  \x7d\n]",
   by decide⟩

/-- Acceptance of the prompt field: exactly the present string values of
length at least 1. -/
theorem parsePrompt_ok_iff (v : Option Json) (p : String) :
    parsePrompt v = .ok p ↔ (v = some (.str p) ∧ 1 ≤ p.length) := by
  cases v with
  | none => simp [parsePrompt]
  | some j =>
      cases j with
      | str s =>
          simp only [parsePrompt]
          by_cases h : s.length < 1
          · simp only [if_pos h]
            constructor
            · intro hh; cases hh
            · rintro ⟨heq, hlen⟩
              obtain rfl : s = p := by
                injection heq with h2
                injection h2
              omega
          · simp only [if_neg h]
            constructor
            · intro hh
              obtain rfl : s = p := by injection hh
              exact ⟨rfl, by omega⟩
            · rintro ⟨heq, _⟩
              obtain rfl : s = p := by
                injection heq with h2
                injection h2
              rfl
      | null => simp [parsePrompt]
      | bool b => simp [parsePrompt]
      | num n => simp [parsePrompt]
      | arr xs => simp [parsePrompt]
      | obj f2 => simp [parsePrompt]

/-- Acceptance of an optional string field: absent (yielding the default)
or a present string value. -/
theorem parseOptionalString_ok_iff (v : Option Json) (d f s : String) :
    parseOptionalString v d f = .ok s ↔ ((v = none ∧ s = d) ∨ v = some (.str s)) := by
  cases v with
  | none => simp [parseOptionalString, eq_comm]
  | some j => cases j <;> simp [parseOptionalString]

/-- Componentwise description of a successful parse of an object body. -/
theorem validate_obj_ok_iff (fs : List (String × Json)) (job : GenerateCodeRequest) :
    validate (.obj fs) = .ok job ↔
      (parsePrompt ((Json.obj fs).get "prompt") = .ok job.prompt ∧
       parseOptionalString ((Json.obj fs).get "language") "javascript" "language"
         = .ok job.language ∧
       parseOptionalString ((Json.obj fs).get "model") "codellama" "model"
         = .ok job.model) := by
  obtain ⟨jp, jl, jm⟩ := job
  simp only [validate]
  cases h1 : parsePrompt ((Json.obj fs).get "prompt") with
  | error i1 =>
      cases h2 : parseOptionalString ((Json.obj fs).get "language") "javascript" "language" <;>
        cases h3 : parseOptionalString ((Json.obj fs).get "model") "codellama" "model" <;>
          simp
  | ok p =>
      cases h2 : parseOptionalString ((Json.obj fs).get "language") "javascript" "language" with
      | error i2 =>
          cases h3 : parseOptionalString ((Json.obj fs).get "model") "codellama" "model" <;> simp
      | ok l =>
          cases h3 : parseOptionalString ((Json.obj fs).get "model") "codellama" "model" with
          | error i3 => simp
          | ok m => simp [GenerateCodeRequest.mk.injEq, eq_comm]

/-- C7 counterexample: the input `{ prompt: "hi", language: 42 }` has a
prompt that is a string of length at least 1, yet validation rejects it
(zod also type-checks the optional fields), so validation does not accept
exactly the inputs with a valid prompt. -/
theorem validate_rejects_good_prompt_bad_language :
    validate (.obj [("prompt", .str "hi"), ("language", .num 42)])
      = .error [⟨"invalid_type", "Expected string, received number", ["language"]⟩] ∧
    1 ≤ ("hi" : String).length :=
  ⟨rfl, by decide⟩

/-- C7 amended: validation accepts exactly the object inputs whose `prompt`
is a string of length at least 1 and whose `language` and `model` fields,
when present, are strings; on accepted inputs it keeps the given `prompt`,
fills `language` with "javascript" and `model` with "codellama" when the
field is absent, and keeps the provided value otherwise. -/
theorem validate_accepts_exactly_and_defaults (j : Json) :
    ((∃ job, validate j = .ok job) ↔
      ((∃ fs, j = .obj fs) ∧
       (∃ p, j.get "prompt" = some (.str p) ∧ 1 ≤ p.length) ∧
       (j.get "language" = none ∨ ∃ l, j.get "language" = some (.str l)) ∧
       (j.get "model" = none ∨ ∃ m, j.get "model" = some (.str m)))) ∧
    (∀ job, validate j = .ok job →
      j.get "prompt" = some (.str job.prompt) ∧
      ((j.get "language" = none ∧ job.language = "javascript") ∨
        j.get "language" = some (.str job.language)) ∧
      ((j.get "model" = none ∧ job.model = "codellama") ∨
        j.get "model" = some (.str job.model))) := by
  cases j with
  | obj fs =>
      constructor
      · constructor
        · rintro ⟨job, hjob⟩
          rw [validate_obj_ok_iff] at hjob
          obtain ⟨hp, hl, hm⟩ := hjob
          rw [parsePrompt_ok_iff] at hp
          rw [parseOptionalString_ok_iff] at hl hm
          refine ⟨⟨fs, rfl⟩, ⟨job.prompt, hp⟩, ?_, ?_⟩
          · rcases hl with ⟨h, _⟩ | h
            · exact Or.inl h
            · exact Or.inr ⟨job.language, h⟩
          · rcases hm with ⟨h, _⟩ | h
            · exact Or.inl h
            · exact Or.inr ⟨job.model, h⟩
        · rintro ⟨_, ⟨p, hp, hplen⟩, hl, hm⟩
          rcases hl with hl | ⟨l, hl⟩
          · rcases hm with hm | ⟨m, hm⟩
            · exact ⟨⟨p, "javascript", "codellama"⟩, (validate_obj_ok_iff fs _).mpr
                ⟨(parsePrompt_ok_iff _ _).mpr ⟨hp, hplen⟩,
                 (parseOptionalString_ok_iff _ _ _ _).mpr (Or.inl ⟨hl, rfl⟩),
                 (parseOptionalString_ok_iff _ _ _ _).mpr (Or.inl ⟨hm, rfl⟩)⟩⟩
            · exact ⟨⟨p, "javascript", m⟩, (validate_obj_ok_iff fs _).mpr
                ⟨(parsePrompt_ok_iff _ _).mpr ⟨hp, hplen⟩,
                 (parseOptionalString_ok_iff _ _ _ _).mpr (Or.inl ⟨hl, rfl⟩),
                 (parseOptionalString_ok_iff _ _ _ _).mpr (Or.inr hm)⟩⟩
          · rcases hm with hm | ⟨m, hm⟩
            · exact ⟨⟨p, l, "codellama"⟩, (validate_obj_ok_iff fs _).mpr
                ⟨(parsePrompt_ok_iff _ _).mpr ⟨hp, hplen⟩,
                 (parseOptionalString_ok_iff _ _ _ _).mpr (Or.inr hl),
                 (parseOptionalString_ok_iff _ _ _ _).mpr (Or.inl ⟨hm, rfl⟩)⟩⟩
            · exact ⟨⟨p, l, m⟩, (validate_obj_ok_iff fs _).mpr
                ⟨(parsePrompt_ok_iff _ _).mpr ⟨hp, hplen⟩,
                 (parseOptionalString_ok_iff _ _ _ _).mpr (Or.inr hl),
                 (parseOptionalString_ok_iff _ _ _ _).mpr (Or.inr hm)⟩⟩
      · intro job hjob
        rw [validate_obj_ok_iff] at hjob
        obtain ⟨hp, hl, hm⟩ := hjob
        rw [parsePrompt_ok_iff] at hp
        rw [parseOptionalString_ok_iff] at hl hm
        exact ⟨hp.1, hl.imp id id, hm.imp id id⟩
  | null => simp [validate, Json.get]
  | bool b => simp [validate, Json.get]
  | num n => simp [validate, Json.get]
  | str s => simp [validate, Json.get]
  | arr xs => simp [validate, Json.get]

/-- C3: when the provider would not answer within the 30000 ms timer, the
shared abort signal makes the fetch observe no response (it is aborted),
`generateCode` fails with the timeout error whose message names the job's
model and the 30-second bound, and the handler returns HTTP 500. -/
theorem timeout_fails_with_timeout_error
    (env : EnvMap) (reqBody : Json) (job : GenerateCodeRequest)
    (e : ModelEndpoint) (resp : ProviderResponse) (delayMs : Nat)
    (hv : validate reqBody = .ok job)
    (he : (modelEndpoints env).lookup job.model = some e)
    (hd : timeoutMs ≤ delayMs) :
    timeoutMs = 30000 ∧
    fetchOutcomeAt delayMs resp = .aborted ∧
    (generateCode env job.prompt job.language job.model (fetchOutcomeAt delayMs resp)).result
      = .error (.timeout ("Request to " ++ job.model ++ " API timed out after 30 seconds")) ∧
    (∃ a b, "Request to " ++ job.model ++ " API timed out after 30 seconds"
        = a ++ job.model ++ b) ∧
    (generateCodeHandler env reqBody (fetchOutcomeAt delayMs resp)).status = 500 := by
  have hab : fetchOutcomeAt delayMs resp = .aborted := by
    simp [fetchOutcomeAt, hd]
  have hgen : (generateCode env job.prompt job.language job.model
      (fetchOutcomeAt delayMs resp)).result
      = .error (.timeout ("Request to " ++ job.model ++ " API timed out after 30 seconds")) := by
    rw [hab]
    simp [generateCode, he]
  refine ⟨rfl, hab, hgen,
    ⟨"Request to ", " API timed out after 30 seconds", rfl⟩, ?_⟩
  simp [generateCodeHandler, hv, hgen]

/-- C3 witness: a job defaulting to codellama whose provider would answer
only at the 30000 ms mark times out with the spelled-out message and a 500. -/
theorem timeout_fails_with_timeout_error_witness :
    (generateCode (fun _ => none) "sort a list" "javascript" "codellama"
        (fetchOutcomeAt 30000 ⟨200, "OK", none, .ok .null⟩)).result
      = .error (.timeout "Request to codellama API timed out after 30 seconds") ∧
    (generateCodeHandler (fun _ => none) (.obj [("prompt", .str "sort a list")])
        (fetchOutcomeAt 30000 ⟨200, "OK", none, .ok .null⟩)).status = 500 := by
  have h := timeout_fails_with_timeout_error (fun _ => none)
    (.obj [("prompt", .str "sort a list")])
    ⟨"sort a list", "javascript", "codellama"⟩
    { url := "https://api.replicate.com/v1/predictions"
      headers := [("Authorization", "Token undefined"), ("Content-Type", "application/json")]
      transform := codellamaTransform }
    ⟨200, "OK", none, .ok .null⟩ 30000 rfl rfl (by decide)
  exact ⟨h.2.2.1, h.2.2.2.2⟩

/-- C4: a job whose model id is not a registry key makes `generateCode`
fail with the unsupported-model error without issuing any HTTP request, and
the handler returns HTTP 500, distinct from the 400 of a malformed request. -/
theorem unsupported_model_fails_before_call
    (env : EnvMap) (reqBody : Json) (job : GenerateCodeRequest) (outcome : FetchOutcome)
    (hv : validate reqBody = .ok job)
    (he : (modelEndpoints env).lookup job.model = none) :
    (generateCode env job.prompt job.language job.model outcome).request = none ∧
    (generateCode env job.prompt job.language job.model outcome).result
      = .error (.unsupportedModel ("Unsupported model: " ++ job.model)) ∧
    (generateCodeHandler env reqBody outcome).status = 500 ∧
    (500 : Nat) ≠ 400 := by
  have h1 : generateCode env job.prompt job.language job.model outcome
      = ⟨none, .error (.unsupportedModel ("Unsupported model: " ++ job.model))⟩ := by
    simp [generateCode, he]
  have h2 : (generateCode env job.prompt job.language job.model outcome).result
      = .error (.unsupportedModel ("Unsupported model: " ++ job.model)) := by
    rw [h1]
  refine ⟨by rw [h1], h2, ?_, by decide⟩
  simp [generateCodeHandler, hv, h2]

/-- C4 witness: the model id "unknown-model" of the spec scenario. -/
theorem unsupported_model_fails_before_call_witness :
    (generateCode (fun _ => none) "hi" "javascript" "unknown-model" .aborted).request = none ∧
    (generateCode (fun _ => none) "hi" "javascript" "unknown-model" .aborted).result
      = .error (.unsupportedModel "Unsupported model: unknown-model") ∧
    (generateCodeHandler (fun _ => none)
        (.obj [("prompt", .str "hi"), ("model", .str "unknown-model")]) .aborted).status = 500 := by
  have h := unsupported_model_fails_before_call (fun _ => none)
    (.obj [("prompt", .str "hi"), ("model", .str "unknown-model")])
    ⟨"hi", "javascript", "unknown-model"⟩ .aborted rfl rfl
  exact ⟨h.1, h.2.1, h.2.2.1⟩

/-- C5: a completed provider call with a non-2xx status makes `generateCode`
fail with the provider error whose message is built from the upstream status
code and the body text (the status text standing in when the body read
failed), both contained in the message, and the handler returns HTTP 500. -/
theorem provider_error_carries_status_and_body
    (env : EnvMap) (reqBody : Json) (job : GenerateCodeRequest)
    (e : ModelEndpoint) (resp : ProviderResponse)
    (hv : validate reqBody = .ok job)
    (he : (modelEndpoints env).lookup job.model = some e)
    (hne : resp.isOk = false) :
    (generateCode env job.prompt job.language job.model (.resolved resp)).result
      = .error (.providerError ("API request failed (" ++ toString resp.status ++ "): " ++
          resp.bodyText.getD resp.statusText)) ∧
    (∃ a b, "API request failed (" ++ toString resp.status ++ "): " ++
        resp.bodyText.getD resp.statusText = a ++ toString resp.status ++ b) ∧
    (∃ a, "API request failed (" ++ toString resp.status ++ "): " ++
        resp.bodyText.getD resp.statusText = a ++ resp.bodyText.getD resp.statusText) ∧
    (generateCodeHandler env reqBody (.resolved resp)).status = 500 := by
  have hgen : (generateCode env job.prompt job.language job.model (.resolved resp)).result
      = .error (.providerError ("API request failed (" ++ toString resp.status ++ "): " ++
          resp.bodyText.getD resp.statusText)) := by
    simp [generateCode, he, hne]
  refine ⟨hgen,
    ⟨"API request failed (", "): " ++ resp.bodyText.getD resp.statusText, ?_⟩,
    ⟨"API request failed (" ++ toString resp.status ++ "): ", rfl⟩, ?_⟩
  · rw [String.append_assoc]
  · simp [generateCodeHandler, hv, hgen]

/-- C5 witness: the spec scenario, a provider answering HTTP 503 with body
text "overloaded". -/
theorem provider_error_carries_status_and_body_witness :
    (generateCode (fun _ => none) "hi" "javascript" "codellama"
        (.resolved ⟨503, "Service Unavailable", some "overloaded", .ok .null⟩)).result
      = .error (.providerError "API request failed (503): overloaded") ∧
    (generateCodeHandler (fun _ => none) (.obj [("prompt", .str "hi")])
        (.resolved ⟨503, "Service Unavailable", some "overloaded", .ok .null⟩)).status = 500 := by
  have h := provider_error_carries_status_and_body (fun _ => none)
    (.obj [("prompt", .str "hi")]) ⟨"hi", "javascript", "codellama"⟩
    { url := "https://api.replicate.com/v1/predictions"
      headers := [("Authorization", "Token undefined"), ("Content-Type", "application/json")]
      transform := codellamaTransform }
    ⟨503, "Service Unavailable", some "overloaded", .ok .null⟩ rfl rfl (by decide)
  exact ⟨h.1, h.2.2.2⟩

/-- Dispatch of a 2xx response whose transform output is a string that is
blank after trimming ends in the empty-result failure. -/
theorem generate_blank_transform_empty
    (env : EnvMap) (prompt language model : String) (e : ModelEndpoint)
    (resp : ProviderResponse) (data : Json) (s : String)
    (he : (modelEndpoints env).lookup model = some e)
    (hok : resp.isOk = true)
    (hj : resp.bodyJson = .ok data)
    (ht : e.transform data = .str s)
    (hs : jsTrim s = "") :
    (generateCode env prompt language model (.resolved resp)).result
      = .error (.emptyResult "Empty response from AI model") := by
  simp [generateCode, he, hok, hj, ht, checkResult, hs]

/-- C6: a 2xx provider response whose transformed string is empty or
whitespace-only makes `generateCode` fail with the empty-result error, and
dually every successfully returned code string is non-empty after trimming. -/
theorem empty_transform_fails_and_success_nonblank
    (env : EnvMap) (prompt language model : String) (e : ModelEndpoint)
    (resp : ProviderResponse) (data : Json) (s : String)
    (he : (modelEndpoints env).lookup model = some e)
    (hok : resp.isOk = true)
    (hj : resp.bodyJson = .ok data)
    (ht : e.transform data = .str s)
    (hs : jsTrim s = "") :
    (generateCode env prompt language model (.resolved resp)).result
      = .error (.emptyResult "Empty response from AI model") ∧
    (∀ outcome code,
      (generateCode env prompt language model outcome).result = .ok code →
      jsTrim code ≠ "") := by
  refine ⟨generate_blank_transform_empty env prompt language model e resp data s
    he hok hj ht hs, ?_⟩
  intro outcome code hc
  cases outcome with
  | aborted => simp [generateCode, he] at hc
  | netError m => simp [generateCode, he] at hc
  | resolved r2 =>
      cases h2 : r2.isOk with
      | false => simp [generateCode, he, h2] at hc
      | true =>
          cases hbj : r2.bodyJson with
          | error m => simp [generateCode, he, h2, hbj] at hc
          | ok d2 =>
              have hck : checkResult (e.transform d2) = .ok code := by
                simpa [generateCode, he, h2, hbj] using hc
              exact checkResult_ok_trim _ _ hck

/-- C6 witness: codellama answering 200 with `{ output: "   " }`, an
all-whitespace transform output, is rejected as an empty result. -/
theorem empty_transform_fails_and_success_nonblank_witness :
    (generateCode (fun _ => none) "hi" "javascript" "codellama"
        (.resolved ⟨200, "OK", none, .ok (.obj [("output", .str "   ")])⟩)).result
      = .error (.emptyResult "Empty response from AI model") :=
  (empty_transform_fails_and_success_nonblank (fun _ => none) "hi" "javascript" "codellama"
    { url := "https://api.replicate.com/v1/predictions"
      headers := [("Authorization", "Token undefined"), ("Content-Type", "application/json")]
      transform := codellamaTransform }
    ⟨200, "OK", none, .ok (.obj [("output", .str "   ")])⟩
    (.obj [("output", .str "   ")]) "   "
    rfl (by decide) rfl rfl (by decide)).1

/-- C8: for every registry model, the outbound request carries the
endpoint's URL and headers and the fixed body: the instruction template
wrapping the prompt and language, and the generation parameters 1000, 0.2
and 0.95, identical for all providers since the body never depends on the
model. -/
theorem outbound_request_body_fixed
    (env : EnvMap) (prompt language model : String) (e : ModelEndpoint)
    (outcome : FetchOutcome)
    (he : (modelEndpoints env).lookup model = some e) :
    (generateCode env prompt language model outcome).request
      = some ⟨e.url, e.headers,
          { prompt := "Write " ++ language ++ " code for: " ++ prompt ++
              "\nOnly respond with code, no explanations."
            max_new_tokens := 1000
            temperature := (0.2 : ℚ)
            top_p := (0.95 : ℚ) }⟩ := by
  cases outcome with
  | aborted => simp [generateCode, he, buildRequestBody]
  | netError m => simp [generateCode, he, buildRequestBody]
  | resolved r =>
      cases hok : r.isOk with
      | false => simp [generateCode, he, hok, buildRequestBody]
      | true => cases hbj : r.bodyJson <;> simp [generateCode, he, hok, hbj, buildRequestBody]

/-- C8 witness: the starcoder entry with no environment overrides. -/
theorem outbound_request_body_fixed_witness :
    (generateCode (fun _ => none) "fizzbuzz" "python" "starcoder" .aborted).request
      = some ⟨"https://api.huggingface.co/models/bigcode/starcoder",
          [("Authorization", "Bearer undefined"), ("Content-Type", "application/json")],
          { prompt := "Write python code for: fizzbuzz\nOnly respond with code, no explanations."
            max_new_tokens := 1000
            temperature := (0.2 : ℚ)
            top_p := (0.95 : ℚ) }⟩ :=
  outbound_request_body_fixed (fun _ => none) "fizzbuzz" "python" "starcoder"
    { url := "https://api.huggingface.co/models/bigcode/starcoder"
      headers := [("Authorization", "Bearer undefined"), ("Content-Type", "application/json")]
      transform := starcoderTransform }
    .aborted rfl

/-- C9: the handler always produces a structured response: a 400 with
`error`/`message` on a validation failure, a 200 with `code`/`language` on
success, or a 500 with `error`, the failure-derived `message` and the
offending `model` id on a dispatch failure — never anything else. -/
theorem handler_always_structured_response
    (env : EnvMap) (reqBody : Json) (outcome : FetchOutcome) :
    (∃ issues, validate reqBody = .error issues ∧
      generateCodeHandler env reqBody outcome
        = ⟨400, .obj [("error", .str "Invalid request data"),
            ("message", .str (jsStrOrElse (zodErrorMessage issues) "Validation failed"))]⟩) ∨
    (∃ job code, validate reqBody = .ok job ∧
      (generateCode env job.prompt job.language job.model outcome).result = .ok code ∧
      generateCodeHandler env reqBody outcome
        = ⟨200, .obj [("code", .str code), ("language", .str job.language)]⟩) ∨
    (∃ job f, validate reqBody = .ok job ∧
      (generateCode env job.prompt job.language job.model outcome).result = .error f ∧
      generateCodeHandler env reqBody outcome
        = ⟨500, .obj [("error", .str "Failed to generate code"),
            ("message", .str (jsStrOrElse f.message "Unknown error occurred")),
            ("model", .str job.model)]⟩) := by
  cases hv : validate reqBody with
  | error issues =>
      exact Or.inl ⟨issues, rfl, by simp [generateCodeHandler, hv]⟩
  | ok job =>
      cases hr : (generateCode env job.prompt job.language job.model outcome).result with
      | ok code =>
          exact Or.inr (Or.inl ⟨job, code, rfl, hr, by simp [generateCodeHandler, hv, hr]⟩)
      | error f =>
          exact Or.inr (Or.inr ⟨job, f, rfl, hr, by simp [generateCodeHandler, hv, hr]⟩)

/-- C10: when the field a provider's transform reads is absent or null in
the 2xx JSON body — `output` for codellama, `generated_text` for starcoder,
`output.text` (through optional chaining) for wizard-coder — the transform
returns the empty string, so `generateCode` fails with the empty-result
error rather than an unclassified one. -/
theorem missing_field_transforms_to_empty
    (env : EnvMap) (prompt language : String) (resp : ProviderResponse) (data : Json)
    (hok : resp.isOk = true)
    (hj : resp.bodyJson = .ok data) :
    ((data.get "output" = none ∨ data.get "output" = some .null) →
      codellamaTransform data = .str "" ∧
      (generateCode env prompt language "codellama" (.resolved resp)).result
        = .error (.emptyResult "Empty response from AI model")) ∧
    ((data.get "generated_text" = none ∨ data.get "generated_text" = some .null) →
      starcoderTransform data = .str "" ∧
      (generateCode env prompt language "starcoder" (.resolved resp)).result
        = .error (.emptyResult "Empty response from AI model")) ∧
    ((data.get "output" = none ∨ data.get "output" = some .null ∨
        (∃ o, data.get "output" = some o ∧
          (o.get "text" = none ∨ o.get "text" = some .null))) →
      wizardCoderTransform data = .str "" ∧
      (generateCode env prompt language "wizard-coder" (.resolved resp)).result
        = .error (.emptyResult "Empty response from AI model")) := by
  refine ⟨?_, ?_, ?_⟩
  · intro h
    have ht : codellamaTransform data = .str "" := by
      rcases h with h | h <;> simp [codellamaTransform, jsOrElse, h, Json.truthy]
    exact ⟨ht, generate_blank_transform_empty env prompt language "codellama" _ resp data ""
      rfl hok hj ht (by decide)⟩
  · intro h
    have ht : starcoderTransform data = .str "" := by
      rcases h with h | h <;> simp [starcoderTransform, jsOrElse, h, Json.truthy]
    exact ⟨ht, generate_blank_transform_empty env prompt language "starcoder" _ resp data ""
      rfl hok hj ht (by decide)⟩
  · intro h
    have ht : wizardCoderTransform data = .str "" := by
      rcases h with h | h | ⟨o, ho, hto⟩
      · unfold wizardCoderTransform
        rw [h]
        rfl
      · unfold wizardCoderTransform
        rw [h]
        rfl
      · cases o with
        | null =>
            unfold wizardCoderTransform
            rw [ho]
            rfl
        | bool b =>
            unfold wizardCoderTransform
            rw [ho]
            rfl
        | num n =>
            unfold wizardCoderTransform
            rw [ho]
            rfl
        | str s =>
            unfold wizardCoderTransform
            rw [ho]
            rfl
        | arr xs =>
            unfold wizardCoderTransform
            rw [ho]
            rfl
        | obj f2 =>
            unfold wizardCoderTransform
            rw [ho]
            show jsOrElse ((Json.obj f2).get "text") (.str "") = .str ""
            rcases hto with h2 | h2 <;> (rw [h2]; rfl)
    exact ⟨ht, generate_blank_transform_empty env prompt language "wizard-coder" _ resp data ""
      rfl hok hj ht (by decide)⟩

/-- C10 witness: a 200 response whose JSON body is the empty object feeds
all three transforms an absent field; codellama's dispatch ends in the
empty-result failure. -/
theorem missing_field_transforms_to_empty_witness :
    codellamaTransform (.obj []) = .str "" ∧
    (generateCode (fun _ => none) "hi" "javascript" "codellama"
        (.resolved ⟨200, "OK", none, .ok (.obj [])⟩)).result
      = .error (.emptyResult "Empty response from AI model") :=
  (missing_field_transforms_to_empty (fun _ => none) "hi" "javascript"
    ⟨200, "OK", none, .ok (.obj [])⟩ (.obj []) (by decide) rfl).1 (Or.inl rfl)
